import Mathlib

/-!
Verification of `src/pubmed_client.py` (PubMed-Paper-Fetcher).

The Python source is shallowly embedded: HTTP transport is an oracle
function from the attempt index to either a network-level error or an
`HttpResponse`; stateful loops become explicit recursion carrying the
counts of issued requests and performed delays; fallible Python code
(raised exceptions) is modelled with `Except`.
-/

set_option autoImplicit false

/-- Base address of the PubMed E-utilities API
(`PubMedClient.BASE_URL`, `pubmed_client.py` line 14). -/
def BASE_URL : String := "https://eutils.ncbi.nlm.nih.gov/entrez/eutils"

/-- An HTTP response as seen by the client: a status code and a body.
The body type is a parameter because the search step reads the body as
parsed JSON (`response.json()`) while the fetch step reads it as the
outcome of XML parsing (`ET.fromstring(response.content)`). -/
structure HttpResponse (B : Type) : Type where
  status : Nat
  body : B

/-- httpx's success predicate: a 2xx status code. -/
def is_success (s : Nat) : Bool :=
  if 200 ≤ s ∧ s < 300 then true else false

/-- Model of `httpx.Response.raise_for_status()` (line 26): returns the
response itself on a 2xx status and raises `httpx.HTTPStatusError`
(a subclass of `httpx.HTTPError`) otherwise. -/
def raise_for_status {B : Type} (resp : HttpResponse B) : Except String (HttpResponse B) :=
  if is_success resp.status then Except.ok resp
  else Except.error ("HTTPStatusError: " ++ toString resp.status)

/-- Transport oracle: the outcome of `httpx.get(url, params=params, timeout=10)`
on each attempt (indexed from 0). `Except.error` models a raised
`httpx.HTTPError` at the transport level. -/
abbrev Transport (B : Type) : Type :=
  String → List (String × String) → Nat → Except String (HttpResponse B)

/-- An attempt fails iff the transport raises, or the server answers
with a non-success (non-2xx) status so `raise_for_status` raises. -/
def attemptFails {B : Type} : Except String (HttpResponse B) → Bool
  | Except.error _ => true
  | Except.ok resp => !(is_success resp.status)

/-- The message of the `RuntimeError` raised on line 32 after all
retries are exhausted. -/
def connectionExhaustedMsg : String :=
  "Failed to connect to PubMed API after multiple retries."

/-- Trace of one `safe_request` call: the returned response or raised
error, the number of `httpx.get` calls issued, and the number of
`time.sleep(delay)` pauses performed. -/
structure ReqTrace (B : Type) : Type where
  result : Except String (HttpResponse B)
  attempts : Nat
  delays : Nat

/-- One iteration of the `for attempt in range(retries)` loop of
`PubMedClient.safe_request` (lines 23-32): issue the request, return the
response on success; on a caught `httpx.HTTPError` log a warning, sleep
the fixed delay and continue; when the range is exhausted, raise
`RuntimeError`. -/
def safe_request_go {B : Type} (g : Transport B) (url : String)
    (ps : List (String × String)) (attempt remaining delays : Nat) : ReqTrace B :=
  match remaining with
  | 0 => ⟨Except.error connectionExhaustedMsg, attempt, delays⟩
  | r + 1 =>
    match g url ps attempt with
    | Except.error _ => safe_request_go g url ps (attempt + 1) r (delays + 1)
    | Except.ok resp =>
      match raise_for_status resp with
      | Except.error _ => safe_request_go g url ps (attempt + 1) r (delays + 1)
      | Except.ok resp2 => ⟨Except.ok resp2, attempt + 1, delays⟩

/-- `PubMedClient.safe_request(url, params, retries=3, delay=2)`
(lines 16-32), as a function of the transport oracle. -/
def safe_request {B : Type} (g : Transport B) (url : String)
    (ps : List (String × String)) (retries : Nat) : ReqTrace B :=
  safe_request_go g url ps 0 retries 0

theorem safe_request_go_exhaust {B : Type} (g : Transport B) (url : String)
    (ps : List (String × String)) (remaining : Nat) :
    ∀ attempt delays : Nat,
      (∀ j : Nat, j < remaining → attemptFails (g url ps (attempt + j)) = true) →
      safe_request_go g url ps attempt remaining delays =
        ⟨Except.error connectionExhaustedMsg, attempt + remaining, delays + remaining⟩ := by
  induction remaining with
  | zero => intro attempt delays _; rfl
  | succ r ih =>
    intro attempt delays h
    have h0 : attemptFails (g url ps attempt) = true := by
      have := h 0 (Nat.succ_pos r)
      simpa using this
    have hshift : ∀ j : Nat, j < r → attemptFails (g url ps (attempt + 1 + j)) = true := by
      intro j hj
      have := h (j + 1) (Nat.succ_lt_succ hj)
      have e : attempt + (j + 1) = attempt + 1 + j := by omega
      rwa [e] at this
    have e1 : attempt + (r + 1) = attempt + 1 + r := by omega
    have e2 : delays + (r + 1) = delays + 1 + r := by omega
    rw [e1, e2]
    simp only [safe_request_go]
    cases hg : g url ps attempt with
    | error e =>
      exact ih (attempt + 1) (delays + 1) hshift
    | ok resp =>
      rw [hg] at h0
      have hns : is_success resp.status = false := by
        simpa [attemptFails] using h0
      simp only [raise_for_status, hns, Bool.false_eq_true, if_false]
      exact ih (attempt + 1) (delays + 1) hshift

theorem safe_request_go_success {B : Type} (g : Transport B) (url : String)
    (ps : List (String × String)) (j : Nat) :
    ∀ attempt remaining delays : Nat, ∀ resp : HttpResponse B,
      j < remaining →
      (∀ i : Nat, i < j → attemptFails (g url ps (attempt + i)) = true) →
      g url ps (attempt + j) = Except.ok resp →
      is_success resp.status = true →
      safe_request_go g url ps attempt remaining delays =
        ⟨Except.ok resp, attempt + j + 1, delays + j⟩ := by
  induction j with
  | zero =>
    intro attempt remaining delays resp hj _ hok hs
    cases remaining with
    | zero => exact absurd hj (Nat.lt_irrefl 0)
    | succ r =>
      have hok0 : g url ps attempt = Except.ok resp := by simpa using hok
      simp only [safe_request_go, hok0, raise_for_status, hs, if_true]
      rfl
  | succ n ih =>
    intro attempt remaining delays resp hj hfail hok hs
    cases remaining with
    | zero => exact absurd hj (Nat.not_lt_zero _)
    | succ r =>
      have h0 : attemptFails (g url ps attempt) = true := by
        have := hfail 0 (Nat.succ_pos n)
        simpa using this
      have hshift : ∀ i : Nat, i < n → attemptFails (g url ps (attempt + 1 + i)) = true := by
        intro i hi
        have := hfail (i + 1) (Nat.succ_lt_succ hi)
        have e : attempt + (i + 1) = attempt + 1 + i := by omega
        rwa [e] at this
      have hok2 : g url ps (attempt + 1 + n) = Except.ok resp := by
        have e : attempt + (n + 1) = attempt + 1 + n := by omega
        rwa [e] at hok
      have hj2 : n < r := by omega
      have e1 : attempt + (n + 1) + 1 = attempt + 1 + n + 1 := by omega
      have e2 : delays + (n + 1) = delays + 1 + n := by omega
      rw [e1, e2]
      simp only [safe_request_go]
      cases hg : g url ps attempt with
      | error e =>
        exact ih (attempt + 1) r (delays + 1) resp hj2 hshift hok2 hs
      | ok resp0 =>
        rw [hg] at h0
        have hns : is_success resp0.status = false := by
          simpa [attemptFails] using h0
        simp only [raise_for_status, hns, Bool.false_eq_true, if_false]
        exact ih (attempt + 1) r (delays + 1) resp hj2 hshift hok2 hs

/-- C1 (amended): if the first `k` attempts fail (`k < retries`) and
attempt `k` succeeds, `safe_request` issues exactly `k + 1` requests,
performs `k` delays, and returns the successful response; if all
`retries` attempts fail, it raises the connection-exhausted
`RuntimeError` after exactly `retries` requests and performs exactly
`retries` delays — one after every failed attempt, including the final
one (`time.sleep` runs inside the `except` block on every iteration). -/
theorem safe_request_retry_counts {B : Type} (g : Transport B) (url : String)
    (ps : List (String × String)) (retries k : Nat) (resp : HttpResponse B) :
    (k < retries →
      (∀ i : Nat, i < k → attemptFails (g url ps i) = true) →
      g url ps k = Except.ok resp →
      is_success resp.status = true →
      safe_request g url ps retries = ⟨Except.ok resp, k + 1, k⟩) ∧
    ((∀ i : Nat, i < retries → attemptFails (g url ps i) = true) →
      safe_request g url ps retries =
        ⟨Except.error connectionExhaustedMsg, retries, retries⟩) := by
  constructor
  · intro hk hfail hok hs
    have := safe_request_go_success g url ps k 0 retries 0 resp hk
      (by intro i hi; simpa using hfail i hi) (by simpa using hok) hs
    simpa [safe_request] using this
  · intro hfail
    have := safe_request_go_exhaust g url ps retries 0 0
      (by intro j hj; simpa using hfail j hj)
    simpa [safe_request] using this

/-- A transport that raises a network error on attempt 0 and answers
with status 200 from attempt 1 on. -/
def transportOneFail : Transport Unit :=
  fun _ _ n => if n = 0 then Except.error "ConnectTimeout" else Except.ok ⟨200, ()⟩

/-- A transport that raises a network error on every attempt. -/
def transportAlwaysFail : Transport Unit :=
  fun _ _ _ => Except.error "ConnectTimeout"

/-- Witness for C1 at concrete inputs: one initial failure then success
gives 2 requests and 1 delay; three straight failures with
`retries = 3` give the exhaustion error, 3 requests and 3 delays. -/
theorem safe_request_retry_counts_witness :
    safe_request transportOneFail "u" [] 3 = ⟨Except.ok ⟨200, ()⟩, 2, 1⟩ ∧
    safe_request transportAlwaysFail "u" [] 3 =
      ⟨Except.error connectionExhaustedMsg, 3, 3⟩ :=
  ⟨(safe_request_retry_counts transportOneFail "u" [] 3 1 ⟨200, ()⟩).1
      (by decide) (by decide) rfl rfl,
   (safe_request_retry_counts transportAlwaysFail "u" [] 3 0 ⟨200, ()⟩).2 (by decide)⟩

/-- Counterexample to C1 as stated: with `retries = 2` and a transport
that always fails, the code performs 2 delays (one after each failed
attempt, the final one included), not `retries − 1 = 1`. -/
theorem safe_request_delays_counterexample :
    safe_request transportAlwaysFail "u" [] 2 =
      ⟨Except.error connectionExhaustedMsg, 2, 2⟩ ∧ (2 : Nat) ≠ 2 - 1 :=
  ⟨rfl, by decide⟩

/-- C2: if every one of the `retries` attempts fails — a failure being a
transport-level `httpx.HTTPError` or a non-success HTTP status turned
into an error by `raise_for_status` — then `safe_request` raises the
explicit connection-exhausted `RuntimeError` (it never returns a
payload); conversely if the attempts before index `j` fail and attempt
`j` succeeds, no error is raised and that attempt's response is
returned. -/
theorem safe_request_error_contract {B : Type} (g : Transport B) (url : String)
    (ps : List (String × String)) (retries j : Nat) (resp : HttpResponse B) :
    ((∀ i : Nat, i < retries → attemptFails (g url ps i) = true) →
      (safe_request g url ps retries).result = Except.error connectionExhaustedMsg) ∧
    (j < retries →
      (∀ i : Nat, i < j → attemptFails (g url ps i) = true) →
      g url ps j = Except.ok resp →
      is_success resp.status = true →
      (safe_request g url ps retries).result = Except.ok resp) := by
  constructor
  · intro hfail
    have := safe_request_go_exhaust g url ps retries 0 0
      (by intro i hi; simpa using hfail i hi)
    simp [safe_request, this]
  · intro hj hfail hok hs
    have := safe_request_go_success g url ps j 0 retries 0 resp hj
      (by intro i hi; simpa using hfail i hi) (by simpa using hok) hs
    simp [safe_request, this]

/-- A transport whose server answers 500 on attempt 0 (a non-success
status, failed by `raise_for_status`) and 200 on later attempts. -/
def transportServerError : Transport Unit :=
  fun _ _ n => if n = 0 then Except.ok ⟨500, ()⟩ else Except.ok ⟨200, ()⟩

/-- Witness for C2 at concrete inputs: exhaustion raises the explicit
error, and a 500-then-200 transport (the 500 counting as a failed
attempt) returns the eventual 200 response. -/
theorem safe_request_error_contract_witness :
    (safe_request transportAlwaysFail "u" [] 3).result =
      Except.error connectionExhaustedMsg ∧
    (safe_request transportServerError "u" [] 3).result = Except.ok ⟨200, ()⟩ :=
  ⟨(safe_request_error_contract transportAlwaysFail "u" [] 3 0 ⟨200, ()⟩).1 (by decide),
   (safe_request_error_contract transportServerError "u" [] 3 1 ⟨200, ()⟩).2
      (by decide) (by decide) rfl rfl⟩

/-- A node of the parsed XML tree (`xml.etree.ElementTree.Element`):
a tag, optional text content, and the list of child elements. -/
inductive XmlNode : Type where
  | mk (tag : String) (text : Option String) (children : List XmlNode)

/-- The tag of an element. -/
def XmlNode.tag : XmlNode → String
  | XmlNode.mk t _ _ => t

/-- The text content of an element (`Element.text`). -/
def XmlNode.text : XmlNode → Option String
  | XmlNode.mk _ tx _ => tx

/-- The child elements of an element. -/
def XmlNode.children : XmlNode → List XmlNode
  | XmlNode.mk _ _ cs => cs

/-- All proper descendants of the nodes of a list, in document
(preorder) order, each node followed by its own descendants. -/
def descendantsList : List XmlNode → List XmlNode
  | [] => []
  | XmlNode.mk t tx cs :: rest =>
    XmlNode.mk t tx cs :: (descendantsList cs ++ descendantsList rest)

/-- All proper descendants of a node in document order, as produced by
ElementTree's `.//` axis (the node itself is excluded). -/
def XmlNode.descendants (n : XmlNode) : List XmlNode :=
  descendantsList n.children

/-- One step of an ElementPath expression: `tag` (a child step) or
`.//tag` (a descendant step). -/
inductive PathStep : Type where
  | child (tag : String)
  | descendant (tag : String)

/-- Evaluate one path step against a list of context nodes, in order. -/
def stepEval (nodes : List XmlNode) : PathStep → List XmlNode
  | PathStep.child t => nodes.flatMap (fun n => n.children.filter (fun c => c.tag == t))
  | PathStep.descendant t =>
    nodes.flatMap (fun n => n.descendants.filter (fun c => c.tag == t))

/-- `Element.findall(path)`: all matches of the path from `root`, in
document order. -/
def findall (root : XmlNode) (path : List PathStep) : List XmlNode :=
  path.foldl stepEval [root]

/-- `Element.findtext(path)`: the text of the first match, where a
matching element with no text yields the empty string, and no match at
all yields `None`. -/
def findtext (root : XmlNode) (path : List PathStep) : Option String :=
  (findall root path).head?.map (fun n => n.text.getD "")

/-- Python truthiness of an optional string (`None` and `""` are
falsy). -/
def pyTruthy : Option String → Bool
  | Option.none => false
  | Option.some s => !(s == "")

/-- Python's `a or b` applied to two optional strings. -/
def pyOrStr (a b : Option String) : Option String :=
  if pyTruthy a then a else b

/-- A Python value stored in a paper-details dict: `None`, a string, or
a list of strings. -/
inductive PyVal : Type where
  | none
  | str (s : String)
  | list (xs : List String)
deriving Repr, DecidableEq

/-- A Python dict with string keys, as an insertion-ordered
association list; lookup of an absent key is `Option.none`
(a `KeyError` at the `[]` operator). -/
abbrev Record : Type := List (String × PyVal)

/-- Embed an optional string as a dict value. -/
def ofOptStr : Option String → PyVal
  | Option.none => PyVal.none
  | Option.some s => PyVal.str s

/-- The body of the `for author in root.findall(".//Author")` loop
(lines 88-100): per author node read `CollectiveName`, `LastName` and
`ForeName`; append the collective name if truthy, else append
`"<ForeName> <LastName>"` when both names are truthy; independently
append the author's `.//AffiliationInfo/Affiliation` text when truthy. -/
def authorsAffilsLoop : List XmlNode → List String × List String → List String × List String
  | [], acc => acc
  | a :: rest, (auths, affs) =>
    let collective_name := findtext a [PathStep.child "CollectiveName"]
    let last_name := findtext a [PathStep.child "LastName"]
    let fore_name := findtext a [PathStep.child "ForeName"]
    let auths2 :=
      if pyTruthy collective_name then auths ++ [collective_name.getD ""]
      else if pyTruthy last_name && pyTruthy fore_name then
        auths ++ [fore_name.getD "" ++ " " ++ last_name.getD ""]
      else auths
    let affiliation := findtext a [PathStep.descendant "AffiliationInfo", PathStep.child "Affiliation"]
    let affs2 := if pyTruthy affiliation then affs ++ [affiliation.getD ""] else affs
    authorsAffilsLoop rest (auths2, affs2)

/-- The `paper_details` dict built by `fetch_paper_details` from a
successfully parsed tree (lines 78-102), with the keys in insertion
order. The ElementPath strings of the source are `.//ArticleTitle`,
`.//PubDate/Year`, `.//MedlineDate`, `.//AffiliationInfo/Email` and
`.//Author`. -/
def extract_details (paper_id : String) (root : XmlNode) : Record :=
  let pair := authorsAffilsLoop (findall root [PathStep.descendant "Author"]) ([], [])
  [("id", PyVal.str paper_id),
   ("title", ofOptStr (findtext root [PathStep.descendant "ArticleTitle"])),
   ("date", ofOptStr (pyOrStr
      (findtext root [PathStep.descendant "PubDate", PathStep.child "Year"])
      (findtext root [PathStep.descendant "MedlineDate"]))),
   ("authors", PyVal.list pair.1),
   ("affiliations", PyVal.list pair.2),
   ("corresponding_email", ofOptStr
      (findtext root [PathStep.descendant "AffiliationInfo", PathStep.child "Email"]))]

/-- `PubMedClient.fetch_paper_details(paper_id)` (lines 61-102) as a
function of the transport oracle. The response body models
`ET.fromstring(response.content)`: `Except.ok` carries the parsed root,
`Except.error` a raised `ET.ParseError`, which the source catches,
logs, and converts to an empty dict (lines 71-75). A `RuntimeError`
from `safe_request` is not caught and propagates. -/
def fetch_paper_details (paper_id : String)
    (g : Transport (Except String XmlNode)) : Except String Record :=
  match (safe_request g (BASE_URL ++ "/efetch.fcgi")
      [("db", "pubmed"), ("id", paper_id), ("retmode", "xml")] 3).result with
  | Except.error e => Except.error e
  | Except.ok resp =>
    match resp.body with
    | Except.error _ => Except.ok []
    | Except.ok root => Except.ok (extract_details paper_id root)

theorem head?_filter {α : Type} (p : α → Bool) (l : List α) :
    (l.filter p).head? = l.find? p := by
  induction l with
  | nil => rfl
  | cons a rest ih =>
    cases h : p a with
    | true => simp [List.filter_cons, List.find?, h]
    | false => simp [List.filter_cons, List.find?, h, ih]

theorem findall_descendant (root : XmlNode) (t : String) :
    findall root [PathStep.descendant t] =
      root.descendants.filter (fun n => n.tag == t) := by
  simp [findall, stepEval]

theorem findall_descendant_child (root : XmlNode) (t1 t2 : String) :
    findall root [PathStep.descendant t1, PathStep.child t2] =
      (root.descendants.filter (fun n => n.tag == t1)).flatMap
        (fun n => n.children.filter (fun c => c.tag == t2)) := by
  simp [findall, stepEval]

/-- Spec-side selector: the text of the first element with the given
tag anywhere in the tree, in document order. -/
def firstMatchText (root : XmlNode) (t : String) : Option String :=
  (root.descendants.find? (fun n => n.tag == t)).map (fun n => n.text.getD "")

/-- Spec-side selector: the text of the first `t2` element that is a
child of any `t1` element anywhere in the tree, in document order. -/
def firstNestedText (root : XmlNode) (t1 t2 : String) : Option String :=
  ((root.descendants.filter (fun n => n.tag == t1)).flatMap
      (fun n => n.children.filter (fun c => c.tag == t2))).head?.map
    (fun n => n.text.getD "")

/-- Spec-side selector: the text of the first direct child with the
given tag. -/
def childFirstText (a : XmlNode) (t : String) : Option String :=
  (a.children.find? (fun c => c.tag == t)).map (fun n => n.text.getD "")

theorem findtext_descendant (root : XmlNode) (t : String) :
    findtext root [PathStep.descendant t] = firstMatchText root t := by
  rw [findtext, findall_descendant, firstMatchText, head?_filter]

theorem findtext_descendant_child (root : XmlNode) (t1 t2 : String) :
    findtext root [PathStep.descendant t1, PathStep.child t2] =
      firstNestedText root t1 t2 := by
  rw [findtext, findall_descendant_child, firstNestedText]

theorem findtext_child (a : XmlNode) (t : String) :
    findtext a [PathStep.child t] = childFirstText a t := by
  have : findall a [PathStep.child t] = a.children.filter (fun c => c.tag == t) := by
    simp [findall, stepEval]
  rw [findtext, this, childFirstText, head?_filter]

/-- Spec-side description of one author node's contribution to the
authors list: the collective name when it is present (non-empty), else
`"<fore-name> <last-name>"` when both names are present (non-empty),
else nothing. -/
def authorEntry (a : XmlNode) : Option String :=
  let cn := childFirstText a "CollectiveName"
  let ln := childFirstText a "LastName"
  let fn := childFirstText a "ForeName"
  if pyTruthy cn then Option.some (cn.getD "")
  else if pyTruthy ln && pyTruthy fn then
    Option.some (fn.getD "" ++ " " ++ ln.getD "")
  else Option.none

/-- Spec-side description of one author node's contribution to the
affiliations list. -/
def affilEntry (a : XmlNode) : Option String :=
  let af := firstNestedText a "AffiliationInfo" "Affiliation"
  if pyTruthy af then Option.some (af.getD "") else Option.none

theorem authorsAffilsLoop_spec (xs : List XmlNode) :
    ∀ auths affs : List String,
      authorsAffilsLoop xs (auths, affs) =
        (auths ++ xs.filterMap authorEntry, affs ++ xs.filterMap affilEntry) := by
  induction xs with
  | nil => intro auths affs; simp [authorsAffilsLoop]
  | cons a rest ih =>
    intro auths affs
    simp only [authorsAffilsLoop, findtext_child, findtext_descendant_child]
    rw [ih]
    rw [List.filterMap_cons, List.filterMap_cons]
    unfold authorEntry affilEntry
    cases h1 : pyTruthy (childFirstText a "CollectiveName") with
    | true =>
      cases h3 : pyTruthy (firstNestedText a "AffiliationInfo" "Affiliation") <;>
        simp [h1, h3]
    | false =>
      cases h2 : pyTruthy (childFirstText a "LastName") &&
          pyTruthy (childFirstText a "ForeName") with
      | true =>
        cases h3 : pyTruthy (firstNestedText a "AffiliationInfo" "Affiliation") <;>
          simp [h1, h2, h3]
      | false =>
        cases h3 : pyTruthy (firstNestedText a "AffiliationInfo" "Affiliation") <;>
          simp [h1, h2, h3]

/-- C5: the `authors` value of the record built by
`fetch_paper_details` is obtained by iterating all `Author` nodes in
document order and appending, per node, the collective name when
present, else `"<fore-name> <last-name>"` when both names are present,
else nothing (`List.filterMap authorEntry` over the document-ordered
`Author` nodes). -/
theorem extract_details_authors (pid : String) (root : XmlNode) :
    (extract_details pid root).lookup "authors" =
      Option.some (PyVal.list
        ((root.descendants.filter (fun n => n.tag == "Author")).filterMap authorEntry)) := by
  unfold extract_details
  rw [findall_descendant, authorsAffilsLoop_spec]
  simp [List.lookup]

/-- C9: in the record built from a parsed document, `title` is the text
of the first `ArticleTitle` node anywhere in the tree (else `None`);
`date` is the first `PubDate`-child `Year`, falling back to the first
`MedlineDate` when the year is absent or empty (Python `or`); and
`corresponding_email` is the text of the first `Email` child of any
`AffiliationInfo` node anywhere in the tree — not scoped to any author
(else `None`). -/
theorem extract_details_scalar_fields (pid : String) (root : XmlNode) :
    (extract_details pid root).lookup "title" =
        Option.some (ofOptStr (firstMatchText root "ArticleTitle")) ∧
    (extract_details pid root).lookup "date" =
        Option.some (ofOptStr (pyOrStr
          (firstNestedText root "PubDate" "Year")
          (firstMatchText root "MedlineDate"))) ∧
    (extract_details pid root).lookup "corresponding_email" =
        Option.some (ofOptStr (firstNestedText root "AffiliationInfo" "Email")) := by
  unfold extract_details
  rw [findtext_descendant, findtext_descendant, findtext_descendant_child,
    findtext_descendant_child]
  refine ⟨?_, ?_, ?_⟩ <;> simp [List.lookup]

/-- C6 part: a transport whose single response is a 200 whose body
fails XML parsing. -/
def badParseTransport : Transport (Except String XmlNode) :=
  fun _ _ _ => Except.ok ⟨200, Except.error "ParseError: syntax error: line 1, column 0"⟩

/-- C6: when the fetch response is obtained but its body is not
parseable as XML, `fetch_paper_details` returns the empty record
(the `except ET.ParseError` branch logs and returns `{}`); and any
error that does escape `fetch_paper_details` is the connection error of
`safe_request`, never a parse error, so one unparsable response cannot
abort a batch of detail fetches. -/
theorem fetch_paper_details_parse_failure (pid : String)
    (g : Transport (Except String XmlNode))
    (resp : HttpResponse (Except String XmlNode)) (e : String) :
    ((safe_request g (BASE_URL ++ "/efetch.fcgi")
        [("db", "pubmed"), ("id", pid), ("retmode", "xml")] 3).result = Except.ok resp →
      resp.body = Except.error e →
      fetch_paper_details pid g = Except.ok ([] : Record)) ∧
    (∀ msg : String, fetch_paper_details pid g = Except.error msg →
      (safe_request g (BASE_URL ++ "/efetch.fcgi")
        [("db", "pubmed"), ("id", pid), ("retmode", "xml")] 3).result = Except.error msg) := by
  constructor
  · intro hok hbody
    unfold fetch_paper_details
    rw [hok]
    simp [hbody]
  · intro msg hmsg
    unfold fetch_paper_details at hmsg
    cases hres : (safe_request g (BASE_URL ++ "/efetch.fcgi")
        [("db", "pubmed"), ("id", pid), ("retmode", "xml")] 3).result with
    | error e2 =>
      rw [hres] at hmsg
      have hmsg2 : (Except.error e2 : Except String Record) = Except.error msg := hmsg
      have h : e2 = msg := by injection hmsg2
      rw [h]
    | ok resp2 =>
      rw [hres] at hmsg
      have hmsg2 : (match resp2.body with
        | Except.error _ => (Except.ok [] : Except String Record)
        | Except.ok root => Except.ok (extract_details pid root)) = Except.error msg := hmsg
      cases hb : resp2.body with
      | error e3 => rw [hb] at hmsg2; exact absurd hmsg2 (by simp)
      | ok root => rw [hb] at hmsg2; exact absurd hmsg2 (by simp)

/-- Witness for C6 at a concrete input: a 200 response with an
unparsable body makes `fetch_paper_details` return the empty record. -/
theorem fetch_paper_details_parse_failure_witness :
    fetch_paper_details "12345" badParseTransport = Except.ok ([] : Record) :=
  (fetch_paper_details_parse_failure "12345" badParseTransport
      ⟨200, Except.error "ParseError: syntax error: line 1, column 0"⟩
      "ParseError: syntax error: line 1, column 0").1 rfl rfl

/-- Python `str.strip()` whitespace set (ASCII part): space, tab,
newline, carriage return, vertical tab, form feed. -/
def pyIsSpace (c : Char) : Bool :=
  c == ' ' || c == '\t' || c == '\n' || c == '\r' || c == '\x0b' || c == '\x0c'

/-- Python `str.strip()`: remove leading and trailing whitespace. -/
def pyStrip (s : String) : String :=
  String.mk (((s.data.dropWhile pyIsSpace).reverse.dropWhile pyIsSpace).reverse)

/-- A parsed JSON value as Python sees it after `response.json()`. -/
inductive PyJson : Type where
  | dict (kvs : List (String × PyJson))
  | list (xs : List PyJson)
  | str (s : String)
  | num (n : Int)

/-- Python `d.get(key, default)`: defined on dicts, where an absent key
yields the default; on any non-dict value the attribute access raises
(`Option.none` here models that `AttributeError`). -/
def pyGetDefault : PyJson → String → PyJson → Option PyJson
  | PyJson.dict kvs, k, d => Option.some ((kvs.lookup k).getD d)
  | _, _, _ => Option.none

/-- The query parameters of the search request (lines 43-48). -/
def searchParams (query : String) (max_results : Nat) : List (String × String) :=
  [("db", "pubmed"), ("term", query), ("retmax", toString max_results), ("retmode", "json")]

/-- Trace of one `search_papers` call: the returned identifier list (or
the propagated exception) and the number of network requests issued. -/
structure SearchTrace : Type where
  result : Except String PyJson
  requests : Nat

/-- The part of `search_papers` after `safe_request` returns (lines
52-59): `data.get("esearchresult", {}).get("idlist", [])`, then return
the identifier list (the `if not paper_ids` branch only logs). -/
def searchFromTrace (t : ReqTrace PyJson) : SearchTrace :=
  match t.result with
  | Except.error e => ⟨Except.error e, t.attempts⟩
  | Except.ok resp =>
    match pyGetDefault resp.body "esearchresult" (PyJson.dict []) with
    | Option.none => ⟨Except.error "AttributeError", t.attempts⟩
    | Option.some inner =>
      match pyGetDefault inner "idlist" (PyJson.list []) with
      | Option.none => ⟨Except.error "AttributeError", t.attempts⟩
      | Option.some ids => ⟨Except.ok ids, t.attempts⟩

/-- `PubMedClient.search_papers(query, max_results=10)` (lines 34-59)
as a function of the transport oracle. An empty query after stripping
returns `[]` immediately, before any network call (lines 38-40). -/
def search_papers (query : String) (max_results : Nat) (g : Transport PyJson) : SearchTrace :=
  if pyStrip query = "" then ⟨Except.ok (PyJson.list []), 0⟩
  else searchFromTrace
    (safe_request g (BASE_URL ++ "/esearch.fcgi") (searchParams query max_results) 3)

/-- C7: for a query that is empty or whitespace-only after stripping,
`search_papers` returns the empty list with zero network requests and
no exception (the logged error line is a side effect only). -/
theorem search_papers_empty_query (q : String) (m : Nat) (g : Transport PyJson)
    (h : pyStrip q = "") :
    search_papers q m g = ⟨Except.ok (PyJson.list []), 0⟩ := by
  simp [search_papers, h]

/-- A transport that always raises a network error, so any network call
would be observable in the request count. -/
def downTransport : Transport PyJson :=
  fun _ _ _ => Except.error "ConnectTimeout"

/-- Witness for C7 at a concrete input: a whitespace-only query yields
the empty list with zero requests, even against a dead transport. -/
theorem search_papers_empty_query_witness :
    pyStrip " \t\n " = "" ∧
    search_papers " \t\n " 10 downTransport = ⟨Except.ok (PyJson.list []), 0⟩ :=
  ⟨by decide, search_papers_empty_query " \t\n " 10 downTransport (by decide)⟩

/-- C8: for a non-empty query whose request succeeds with a JSON dict
body, `search_papers` returns exactly the identifiers of the payload's
`esearchresult.idlist` field in the server-provided order; when the
`idlist` field or the `esearchresult` field is absent, it returns the
empty list without raising. -/
theorem search_papers_idlist (q : String) (m : Nat) (g : Transport PyJson)
    (resp : HttpResponse PyJson) (kvs kvs2 : List (String × PyJson)) (ids : List PyJson) :
    pyStrip q ≠ "" →
    (safe_request g (BASE_URL ++ "/esearch.fcgi") (searchParams q m) 3).result =
      Except.ok resp →
    resp.body = PyJson.dict kvs →
    ((kvs.lookup "esearchresult" = Option.some (PyJson.dict kvs2) →
        kvs2.lookup "idlist" = Option.some (PyJson.list ids) →
        (search_papers q m g).result = Except.ok (PyJson.list ids)) ∧
     (kvs.lookup "esearchresult" = Option.some (PyJson.dict kvs2) →
        kvs2.lookup "idlist" = Option.none →
        (search_papers q m g).result = Except.ok (PyJson.list [])) ∧
     (kvs.lookup "esearchresult" = Option.none →
        (search_papers q m g).result = Except.ok (PyJson.list []))) := by
  intro hq hok hbody
  refine ⟨?_, ?_, ?_⟩
  · intro h1 h2
    simp [search_papers, hq, searchFromTrace, hok, hbody, pyGetDefault, h1, h2]
  · intro h1 h2
    simp [search_papers, hq, searchFromTrace, hok, hbody, pyGetDefault, h1, h2]
  · intro h1
    simp [search_papers, hq, searchFromTrace, hok, hbody, pyGetDefault, h1]

/-- A transport answering 200 with a fixed two-identifier search
payload. -/
def searchOkTransport : Transport PyJson :=
  fun _ _ _ => Except.ok ⟨200, PyJson.dict
    [("esearchresult", PyJson.dict
        [("idlist", PyJson.list [PyJson.str "11", PyJson.str "22"])])]⟩

/-- Witness for C8 at a concrete input: a payload with two identifiers
yields exactly those two identifiers in order. -/
theorem search_papers_idlist_witness :
    (search_papers "cancer" 10 searchOkTransport).result =
      Except.ok (PyJson.list [PyJson.str "11", PyJson.str "22"]) :=
  ((search_papers_idlist "cancer" 10 searchOkTransport
      ⟨200, PyJson.dict
        [("esearchresult", PyJson.dict
            [("idlist", PyJson.list [PyJson.str "11", PyJson.str "22"])])]⟩
      [("esearchresult", PyJson.dict
          [("idlist", PyJson.list [PyJson.str "11", PyJson.str "22"])])]
      [("idlist", PyJson.list [PyJson.str "11", PyJson.str "22"])]
      [PyJson.str "11", PyJson.str "22"])
    (by decide) rfl rfl).1 rfl rfl

/-- Python truthiness of a dict value (`None`, `""` and `[]` are
falsy). -/
def pyTruthyVal : PyVal → Bool
  | PyVal.none => false
  | PyVal.str s => !(s == "")
  | PyVal.list xs => !xs.isEmpty

/-- Python's `a or b` on dict values. -/
def pyOrVal (a b : PyVal) : PyVal :=
  if pyTruthyVal a then a else b

/-- Python `paper[key]`: a lookup that raises `KeyError` when the key
is absent. -/
def pyGetItem (r : Record) (k : String) : Except String PyVal :=
  match r.lookup k with
  | Option.some v => Except.ok v
  | Option.none => Except.error ("KeyError: " ++ k)

/-- Python `"; ".join(x)`: joins a list of strings; joining a string
iterates its characters; joining `None` raises `TypeError`. -/
def pyJoinSemi : PyVal → Except String String
  | PyVal.list xs => Except.ok (String.intercalate "; " xs)
  | PyVal.str s => Except.ok (String.intercalate "; " (s.data.map (fun c => String.mk [c])))
  | PyVal.none => Except.error "TypeError: can only join an iterable"

/-- How `csv.DictWriter.writerow` renders one cell: `None` becomes an
empty cell, a string is written as is, a list is written as its Python
repr. -/
def csvCell : PyVal → String
  | PyVal.none => ""
  | PyVal.str s => s
  | PyVal.list xs =>
    "[" ++ String.intercalate ", " (xs.map (fun s => "\x27" ++ s ++ "\x27")) ++ "]"

/-- The fixed header row of `save_to_csv` (line 114). -/
def headers : List String :=
  ["id", "title", "date", "authors", "affiliations", "corresponding_email"]

/-- Building the row dict passed to `writer.writerow` (lines 120-127),
evaluating the six values in the source's order; the first absent key
raises the `KeyError`. -/
def buildRow (paper : Record) : Except String (List String) := do
  let idv ← pyGetItem paper "id"
  let titlev ← pyGetItem paper "title"
  let datev ← pyGetItem paper "date"
  let authorsv ← pyGetItem paper "authors"
  let authorsCell ← pyJoinSemi authorsv
  let affilsv ← pyGetItem paper "affiliations"
  let affilsCell ← pyJoinSemi affilsv
  let emailv ← pyGetItem paper "corresponding_email"
  Except.ok [csvCell idv, csvCell titlev, csvCell datev, authorsCell, affilsCell,
    csvCell (pyOrVal emailv (PyVal.str "N/A"))]

/-- The `for paper in papers` write loop (lines 119-127): rows written
so far, and the exception that aborted the loop, if any. -/
def writeRowsGo : List Record → List (List String) → List (List String) × Option String
  | [], acc => (acc, Option.none)
  | p :: rest, acc =>
    match buildRow p with
    | Except.ok row => writeRowsGo rest (acc ++ [row])
    | Except.error e => (acc, Option.some e)

/-- `save_to_csv(papers, filename)` (lines 106-129). `Option.none`
models the early return on an empty list (no file opened, nothing
written); otherwise the value is the written rows (header first) paired
with the exception that aborted the write loop, if any. -/
def save_to_csv (papers : List Record) : Option (List (List String) × Option String) :=
  match papers with
  | [] => Option.none
  | _ => Option.some (writeRowsGo papers [headers])

/-- A well-formed paper record as `fetch_paper_details` builds it from
a parsed document: all six keys present, `authors`/`affiliations`
lists, the other fields optional strings. -/
structure Paper : Type where
  id : String
  title : Option String
  date : Option String
  authors : List String
  affiliations : List String
  email : Option String

/-- The dict corresponding to a well-formed paper record, with the
source's key insertion order. -/
def Paper.toRecord (p : Paper) : Record :=
  [("id", PyVal.str p.id),
   ("title", ofOptStr p.title),
   ("date", ofOptStr p.date),
   ("authors", PyVal.list p.authors),
   ("affiliations", PyVal.list p.affiliations),
   ("corresponding_email", ofOptStr p.email)]

/-- Spec-side description of the exported row of a well-formed record:
lists joined with the literal separator `"; "`, an absent title or date
rendered as an empty cell, and a falsy email (absent or empty) rendered
as the literal string `"N/A"`. -/
def Paper.expectedRow (p : Paper) : List String :=
  [p.id, p.title.getD "", p.date.getD "",
   String.intercalate "; " p.authors, String.intercalate "; " p.affiliations,
   match p.email with
   | Option.none => "N/A"
   | Option.some s => if s == "" then "N/A" else s]

theorem buildRow_toRecord (p : Paper) :
    buildRow (Paper.toRecord p) = Except.ok (Paper.expectedRow p) := by
  cases p with
  | mk pid title date authors affiliations email =>
    cases email with
    | none =>
      cases title <;> cases date <;>
        simp [buildRow, Paper.toRecord, Paper.expectedRow, pyGetItem, List.lookup,
          pyJoinSemi, csvCell, pyOrVal, pyTruthyVal, ofOptStr, Bind.bind, Except.bind]
    | some s =>
      cases title <;> cases date <;> by_cases h : s = "" <;>
        simp [buildRow, Paper.toRecord, Paper.expectedRow, pyGetItem, List.lookup,
          pyJoinSemi, csvCell, pyOrVal, pyTruthyVal, ofOptStr, Bind.bind, Except.bind, h]

theorem writeRowsGo_wellFormed (ps : List Paper) :
    ∀ acc : List (List String),
      writeRowsGo (ps.map Paper.toRecord) acc =
        (acc ++ ps.map Paper.expectedRow, Option.none) := by
  induction ps with
  | nil => intro acc; simp [writeRowsGo]
  | cons p rest ih =>
    intro acc
    simp only [List.map_cons, writeRowsGo, buildRow_toRecord]
    rw [ih]
    simp

/-- C3 (amended): for every non-empty list of well-formed paper
records, `save_to_csv` writes one header row with column names exactly
`id`, `title`, `date`, `authors`, `affiliations`, `corresponding_email`
in that order, then one data row per record in input order, with the
authors and affiliations lists joined by the literal separator `"; "`,
an absent email rendered as the literal string `"N/A"`, and an absent
title or date rendered as an empty cell. -/
theorem save_to_csv_rows (ps : List Paper) (h : ps ≠ []) :
    save_to_csv (ps.map Paper.toRecord) =
      Option.some (headers :: ps.map Paper.expectedRow, Option.none) := by
  cases ps with
  | nil => exact absurd rfl h
  | cons p rest =>
    have hmatch : save_to_csv ((p :: rest).map Paper.toRecord) =
        Option.some (writeRowsGo ((p :: rest).map Paper.toRecord) [headers]) := rfl
    rw [hmatch, writeRowsGo_wellFormed]
    simp

/-- Sample record: title present, date absent, one author, no
affiliation, no email. -/
def paperA : Paper :=
  ⟨"1", Option.some "T1", Option.none, ["Jane Doe", "WHO Group"], ["Inst A"], Option.none⟩

/-- Sample record: title absent, date present, no authors, email
present. -/
def paperB : Paper :=
  ⟨"2", Option.none, Option.some "2020", [], [], Option.some "x@y.org"⟩

/-- Witness for C3 at concrete inputs: two records produce the header
row plus two data rows, in order, with `"; "`-joined author lists,
`N/A` for the absent email and empty cells for absent title/date. -/
theorem save_to_csv_rows_witness :
    save_to_csv ([paperA, paperB].map Paper.toRecord) =
      Option.some (headers :: [paperA, paperB].map Paper.expectedRow, Option.none) :=
  save_to_csv_rows [paperA, paperB] (by simp)

/-- Counterexample to C3 as stated: the header row written by the code
names its first column `id`, not `identifier`; the full concrete output
for a one-record list is shown, and its first cell differs from the
claimed column name. -/
theorem save_to_csv_header_counterexample :
    save_to_csv [Paper.toRecord ⟨"9", Option.none, Option.none, [], [], Option.none⟩] =
      Option.some ([["id", "title", "date", "authors", "affiliations", "corresponding_email"],
        ["9", "", "", "", "", "N/A"]], Option.none) ∧
    ("id" : String) ≠ "identifier" := by
  constructor
  · rfl
  · decide

/-- C4: exporting a list whose second element is the empty record that
`fetch_paper_details` returns on a parse failure writes the header and
the first data row, then aborts with `KeyError: id` while building the
empty record's row — the export step fails instead of degrading to a
blank row. -/
theorem save_to_csv_keyerror_on_empty_record :
    fetch_paper_details "2" badParseTransport = Except.ok ([] : Record) ∧
    save_to_csv [Paper.toRecord ⟨"9", Option.none, Option.none, [], [], Option.none⟩,
        ([] : Record)] =
      Option.some ([headers, ["9", "", "", "", "", "N/A"]],
        Option.some ("KeyError: " ++ "id")) := by
  constructor
  · rfl
  · rfl

/-- C10: for the empty record list, `save_to_csv` returns before
opening or writing the destination file and raises nothing (the logged
warning is a side effect only). -/
theorem save_to_csv_empty_noop : save_to_csv [] = Option.none := rfl
